import Mathlib

/-!
Shallow embedding of `src/background.js` from the
download-image-as-png Chrome extension, together with proofs of the
specification claims.

The background script is a single linear pipeline:
register a context menu entry, react to a click, fetch the image,
decode it, composite it onto a white canvas, re-encode it as PNG,
transport-encode the blob to a data URL, and hand the result to the
download subsystem.  Platform primitives (network fetch, image decode,
PNG encode, FileReader) are modelled as an explicit environment record,
and the script's calls into the platform are recorded as an effect
trace.
-/

/-- Constant `CONTEXT_MENU_ID` from `background.js`. -/
def CONTEXT_MENU_ID : String := "download-image-as-png"

/-- Constant `CONTEXT_MENU_TITLE` from `background.js`. -/
def CONTEXT_MENU_TITLE : String := "Download image as PNG"

/-- An RGBA pixel sample with 8-bit channels (values in 0..255). -/
structure Pixel where
  r : Nat
  g : Nat
  b : Nat
  a : Nat
deriving DecidableEq, Repr

/-- Pure opaque white, the canvas `fillStyle = 'white'`. -/
def whitePixel : Pixel := ⟨255, 255, 255, 255⟩

/-- A decoded `ImageBitmap`: dimensions plus a pixel lookup. -/
structure Bitmap where
  width : Nat
  height : Nat
  px : Nat → Nat → Pixel

/-- An `OffscreenCanvas` 2d surface: dimensions plus the pixel buffer. -/
structure Canvas where
  width : Nat
  height : Nat
  px : Nat → Nat → Pixel

/-- `new OffscreenCanvas(w, h)`: a fresh surface is transparent black. -/
def newCanvas (w h : Nat) : Canvas := ⟨w, h, fun _ _ => ⟨0, 0, 0, 0⟩⟩

/-- Canvas 2d `source-over` alpha compositing of a source pixel onto a
destination pixel, in exact 8-bit integer arithmetic (the divisions are
exact in the fully-transparent and fully-opaque cases relevant here). -/
def srcOver (src dst : Pixel) : Pixel :=
  let outA := src.a + dst.a * (255 - src.a) / 255
  let ch := fun (sc dc : Nat) =>
    if outA = 0 then 0
    else (sc * src.a * 255 + dc * dst.a * (255 - src.a)) / (outA * 255)
  ⟨ch src.r dst.r, ch src.g dst.g, ch src.b dst.b, outA⟩

/-- `ctx.fillRect(x0, y0, w, h)` with the current fill pixel `p`. -/
def fillRect (c : Canvas) (p : Pixel) (x0 y0 w h : Nat) : Canvas :=
  ⟨c.width, c.height, fun x y =>
      if x0 ≤ x ∧ x < x0 + w ∧ y0 ≤ y ∧ y < y0 + h then p else c.px x y⟩

/-- `ctx.drawImage(bmp, 0, 0)`: source-over composite of the bitmap onto
the canvas at the origin, no scaling, no cropping. -/
def drawImage (c : Canvas) (bmp : Bitmap) : Canvas :=
  ⟨c.width, c.height, fun x y =>
      if x < bmp.width ∧ y < bmp.height then srcOver (bmp.px x y) (c.px x y)
      else c.px x y⟩

/-- `createCanvasFromBitmap` from `background.js`: allocate an
`OffscreenCanvas` of the bitmap's dimensions, fill it with opaque white,
then draw the bitmap at the origin. -/
def createCanvasFromBitmap (imgBitmap : Bitmap) : Canvas :=
  let canvas := newCanvas imgBitmap.width imgBitmap.height
  let filled := fillRect canvas whitePixel 0 0 canvas.width canvas.height
  drawImage filled imgBitmap

/-- Least-significant-first decimal digits, by fuelled structural
recursion so that it reduces in the kernel (`decide`/`rfl`). -/
def digitsRevAux : Nat → Nat → List Nat
  | 0, _ => []
  | fuel + 1, n => if n < 10 then [n] else n % 10 :: digitsRevAux fuel (n / 10)

/-- Least-significant-first decimal digits of `n` (`[0]` for `0`). -/
def digitsRev (n : Nat) : List Nat := digitsRevAux (n + 1) n

/-- JavaScript number-to-string conversion (`String(n)` or `${n}`) for a
nonnegative integer: most-significant-first decimal digits as characters. -/
def natToString (n : Nat) : String :=
  String.mk ((digitsRev n).reverse.map fun d => Char.ofNat (48 + d))

/-- JavaScript `s.padStart(2, '0')`: left-pad with zeros to length 2. -/
def padStart2 (s : String) : String :=
  if s.length < 2 then String.mk (List.replicate (2 - s.length) '0') ++ s else s

/-- The observable fields of a JavaScript `Date` used by the script.
`getMonth` is 0-indexed, as in JavaScript. -/
structure JsDate where
  getFullYear : Nat
  getMonth : Nat
  getDate : Nat

/-- `generatePngFilename` from `background.js`.  The current date comes
from `new Date()` (the `now` argument) and `rand` models the value of
`Math.random()`, a real in `[0, 1)` represented as a rational. -/
def generatePngFilename (now : JsDate) (rand : ℚ) : String :=
  let year := natToString now.getFullYear
  let month := padStart2 (natToString (now.getMonth + 1))
  let day := padStart2 (natToString now.getDate)
  let todayDate := year ++ month ++ day
  let randomNumber := Nat.floor ((100000 : ℚ) + rand * 900000)
  "image-" ++ todayDate ++ "-" ++ natToString randomNumber ++ ".png"

/-- Decidable matcher for the filename pattern
`image-\d{8}-\d{6}\.png` (literally: the prefix `image-`, eight decimal
digits, a hyphen, six decimal digits, the suffix `.png`). -/
def matchesFilenamePattern (s : String) : Bool :=
  let cs := s.data
  (cs.length == 25) &&
  (cs.take 6 == ['i', 'm', 'a', 'g', 'e', '-']) &&
  ((cs.drop 6).take 8).all Char.isDigit &&
  ((cs.drop 14).take 1 == ['-']) &&
  ((cs.drop 15).take 6).all Char.isDigit &&
  (cs.drop 21 == ['.', 'p', 'n', 'g'])

/-- A JavaScript `Error` value: only its `message` is observed. -/
structure JsError where
  message : String
deriving DecidableEq, Repr

/-- An opaque binary `Blob`: its byte content. -/
structure Blob where
  bytes : List Nat
deriving DecidableEq, Repr

/-- A `fetch` `Response`: the `ok` flag, the `statusText`, and the body
obtained by `response.blob()`. -/
structure Response where
  ok : Bool
  statusText : String
  blob : Blob

/-- Outcome of a `FileReader.readAsDataURL` read: exactly one of the
`onload`, `onerror`, `onabort` handlers fires. -/
inductive ReaderOutcome where
  | load (result : String)
  | error (e : JsError)
  | abort
deriving DecidableEq, Repr

/-- `blobToDataURL` from `background.js`, as a function of the reader's
outcome: resolve with `reader.result` on load, reject with
`reader.error` on error, reject with a fresh abort error on abort. -/
def blobToDataURL (outcome : ReaderOutcome) : Except JsError String :=
  match outcome with
  | ReaderOutcome.load result => Except.ok result
  | ReaderOutcome.error e => Except.error e
  | ReaderOutcome.abort =>
      Except.error ⟨"Blob to Data URL conversion aborted."⟩

/-- Observable calls the background script makes into the platform. -/
inductive Effect where
  | fetchCall (url : String)
  | decodeCall (input : Blob)
  | encodeCall
  | readCall (input : Blob)
  | download (url : String) (filename : String) (saveAs : Bool)
  | alertInTab (tabId : Nat) (message : String)
  | consoleError (message : String)
deriving DecidableEq, Repr

/-- Is the effect a `chrome.downloads.download` handoff call? -/
def isDownloadEff : Effect → Bool
  | Effect.download _ _ _ => true
  | _ => false

/-- Is the effect an alert injected via `chrome.scripting.executeScript`? -/
def isAlertEff : Effect → Bool
  | Effect.alertInTab _ _ => true
  | _ => false

/-- The platform environment a single invocation runs against: the
results of `fetch`, `createImageBitmap`, `canvas.convertToBlob`, the
`FileReader` read, plus `new Date()` and `Math.random()`. -/
structure Env where
  fetch : String → Except JsError Response
  createImageBitmap : Blob → Except JsError Bitmap
  convertToBlob : Canvas → Except JsError Blob
  readAsDataURL : Blob → ReaderOutcome
  date : JsDate
  random : ℚ

/-- `convertImageToPngBlob` from `background.js`: fetch the image, fail
on a non-ok status, decode the blob, composite onto the canvas, encode
as PNG.  The internal `catch` logs `console.error` and re-throws.
Returns the result together with the trace of platform calls. -/
def convertImageToPngBlob (env : Env) (srcUrl : String) :
    Except JsError Blob × List Effect :=
  match env.fetch srcUrl with
  | Except.error e =>
      (Except.error e,
       [Effect.fetchCall srcUrl,
        Effect.consoleError ("Image conversion failed: " ++ e.message)])
  | Except.ok response =>
      if response.ok = false then
        let e : JsError := ⟨"Failed to fetch image: " ++ response.statusText⟩
        (Except.error e,
         [Effect.fetchCall srcUrl,
          Effect.consoleError ("Image conversion failed: " ++ e.message)])
      else
        match env.createImageBitmap response.blob with
        | Except.error e =>
            (Except.error e,
             [Effect.fetchCall srcUrl, Effect.decodeCall response.blob,
              Effect.consoleError ("Image conversion failed: " ++ e.message)])
        | Except.ok imageBitmap =>
            match env.convertToBlob (createCanvasFromBitmap imageBitmap) with
            | Except.error e =>
                (Except.error e,
                 [Effect.fetchCall srcUrl, Effect.decodeCall response.blob,
                  Effect.encodeCall,
                  Effect.consoleError ("Image conversion failed: " ++ e.message)])
            | Except.ok pngBlob =>
                (Except.ok pngBlob,
                 [Effect.fetchCall srcUrl, Effect.decodeCall response.blob,
                  Effect.encodeCall])

/-- The body of the `try` block in `handleContextMenuClick` together
with its `catch`: convert, transport-encode, generate a filename, hand
off the download; on any error inject an alert into the tab. -/
def runPipeline (env : Env) (srcUrl : String) (tab : Nat) : List Effect :=
  match convertImageToPngBlob env srcUrl with
  | (Except.error e, tr) =>
      tr ++ [Effect.alertInTab tab
              ("Failed to convert and download image: " ++ e.message)]
  | (Except.ok pngBlob, tr) =>
      match blobToDataURL (env.readAsDataURL pngBlob) with
      | Except.error e =>
          tr ++ [Effect.readCall pngBlob,
                 Effect.alertInTab tab
                   ("Failed to convert and download image: " ++ e.message)]
      | Except.ok dataUrl =>
          tr ++ [Effect.readCall pngBlob,
                 Effect.download dataUrl
                   (generatePngFilename env.date env.random) true]

/-- The `info` object delivered by `chrome.contextMenus.onClicked`:
`srcUrl` is absent (`none`) on non-image targets. -/
structure ClickInfo where
  menuItemId : String
  srcUrl : Option String

/-- The `tab` object delivered with the click event. -/
structure Tab where
  id : Nat

/-- JavaScript truthiness test used by the guard `!info.srcUrl`:
an absent field and the empty string are both falsy. -/
def srcUrlFalsy : Option String → Bool
  | none => true
  | some s => s == ""

/-- `handleContextMenuClick` from `background.js`: guard on the menu
item id and a truthy `srcUrl`, then run the conversion pipeline. -/
def handleContextMenuClick (env : Env) (info : ClickInfo) (tab : Tab) :
    List Effect :=
  if info.menuItemId != CONTEXT_MENU_ID || srcUrlFalsy info.srcUrl then []
  else runPipeline env (info.srcUrl.getD "") tab.id

/-- The error, if any, that the outer `catch` of
`handleContextMenuClick` would observe for a given environment and URL. -/
def pipelineError (env : Env) (srcUrl : String) : Option JsError :=
  match (convertImageToPngBlob env srcUrl).1 with
  | Except.error e => some e
  | Except.ok pngBlob =>
      match blobToDataURL (env.readAsDataURL pngBlob) with
      | Except.error e => some e
      | Except.ok _ => none

/-- A registered context-menu entry in the host's menu registry. -/
structure MenuEntry where
  id : String
  title : String
  contexts : List String
deriving DecidableEq, Repr

/-- Host semantics of `chrome.contextMenus.create`: adding an entry
whose id already exists fails (sets `chrome.runtime.lastError`, reported
as the returned flag) and leaves the registry unchanged. -/
def menusCreate (reg : List MenuEntry) (e : MenuEntry) :
    List MenuEntry × Bool :=
  if reg.any (fun m => m.id == e.id) then (reg, true) else (reg ++ [e], false)

/-- Host semantics of `chrome.contextMenus.update`: set the title of
every entry with the given id, in place. -/
def menusUpdate (reg : List MenuEntry) (id title : String) :
    List MenuEntry :=
  reg.map fun m => if m.id == id then ⟨m.id, title, m.contexts⟩ else m

/-- The `chrome.runtime.onInstalled` listener from `background.js`:
create the menu entry; if that set `lastError` (duplicate id), update
the existing entry's title instead. -/
def onInstalled (reg : List MenuEntry) : List MenuEntry :=
  let created := menusCreate reg
    ⟨CONTEXT_MENU_ID, CONTEXT_MENU_TITLE, ["image"]⟩
  if created.2 then menusUpdate created.1 CONTEXT_MENU_ID CONTEXT_MENU_TITLE
  else created.1

/-- A 1×1 fully transparent bitmap, used as a concrete test input. -/
def transparentBmp : Bitmap := ⟨1, 1, fun _ _ => ⟨10, 20, 30, 0⟩⟩

/-- A 1×1 fully opaque bitmap, used as a concrete test input. -/
def opaqueBmp : Bitmap := ⟨1, 1, fun _ _ => ⟨1, 2, 3, 255⟩⟩

/-- A concrete blob used as a test input. -/
def testBlob : Blob := ⟨[255, 216, 255, 224]⟩

/-- A concrete PNG blob (starts with the PNG signature bytes). -/
def testPngBlob : Blob := ⟨[137, 80, 78, 71, 13, 10, 26, 10]⟩

/-- A concrete environment in which every pipeline stage succeeds. -/
def testEnv : Env :=
  ⟨fun _ => Except.ok ⟨true, "OK", testBlob⟩,
   fun _ => Except.ok opaqueBmp,
   fun _ => Except.ok testPngBlob,
   fun _ => ReaderOutcome.load "data:image/png;base64,iVBORw0KGgo=",
   ⟨2026, 9, 12⟩,
   0⟩

/-- A concrete image URL used as a test input. -/
def testUrl : String := "https://example.com/a.jpg"

/-- A concrete qualifying click event. -/
def testInfo : ClickInfo := ⟨CONTEXT_MENU_ID, some testUrl⟩

/-- The successful response served by `testEnv`. -/
def testResp : Response := ⟨true, "OK", testBlob⟩

/-- The data URL produced by the reader in `testEnv`. -/
def testDataUrl : String := "data:image/png;base64,iVBORw0KGgo="

/-- An HTTP 404 response: `ok` is false, `statusText` is `Not Found`. -/
def testResp404 : Response := ⟨false, "Not Found", testBlob⟩

/-- An environment whose fetch resolves with an HTTP 404 response. -/
def testEnv404 : Env :=
  ⟨fun _ => Except.ok testResp404,
   fun _ => Except.ok opaqueBmp,
   fun _ => Except.ok testPngBlob,
   fun _ => ReaderOutcome.load testDataUrl,
   ⟨2026, 9, 12⟩,
   0⟩


/-- An environment whose fetch rejects with a network error. -/
def testEnvNetFail : Env :=
  ⟨fun _ => Except.error ⟨"NetworkError when attempting to fetch resource."⟩,
   fun _ => Except.ok opaqueBmp,
   fun _ => Except.ok testPngBlob,
   fun _ => ReaderOutcome.load testDataUrl,
   ⟨2026, 9, 12⟩,
   0⟩

/-- C2: the compositor allocates a surface of exactly the bitmap's
dimensions, fills it with opaque white and draws the bitmap at the
origin; every fully transparent source pixel therefore comes out as
pure opaque white (255,255,255,255). -/
theorem createCanvasFromBitmap_transparent_white (bmp : Bitmap) (x y : Nat)
    (hx : x < bmp.width) (hy : y < bmp.height) (ha : (bmp.px x y).a = 0) :
    (createCanvasFromBitmap bmp).width = bmp.width ∧
    (createCanvasFromBitmap bmp).height = bmp.height ∧
    (createCanvasFromBitmap bmp).px x y = whitePixel := by
  refine ⟨rfl, rfl, ?_⟩
  simp only [createCanvasFromBitmap, drawImage, fillRect, newCanvas]
  simp only [hx, hy, and_true, true_and, Nat.zero_le, Nat.zero_add, if_pos]
  simp [srcOver, whitePixel, ha]

/-- Witness for `createCanvasFromBitmap_transparent_white` at a concrete
1×1 transparent bitmap. -/
theorem createCanvasFromBitmap_transparent_white_witness :
    0 < transparentBmp.width ∧ 0 < transparentBmp.height ∧
    (transparentBmp.px 0 0).a = 0 ∧
    ((createCanvasFromBitmap transparentBmp).width = transparentBmp.width ∧
     (createCanvasFromBitmap transparentBmp).height = transparentBmp.height ∧
     (createCanvasFromBitmap transparentBmp).px 0 0 = whitePixel) :=
  ⟨by decide, by decide, by decide,
   createCanvasFromBitmap_transparent_white transparentBmp 0 0
     (by decide) (by decide) (by decide)⟩

/-- C9: on a bitmap whose pixels are all fully opaque, the white fill is
completely overwritten and the composited surface equals the bitmap
pixel-for-pixel. -/
theorem createCanvasFromBitmap_opaque_identity (bmp : Bitmap)
    (hop : ∀ x y, x < bmp.width → y < bmp.height → (bmp.px x y).a = 255) :
    (createCanvasFromBitmap bmp).width = bmp.width ∧
    (createCanvasFromBitmap bmp).height = bmp.height ∧
    ∀ x y, x < bmp.width → y < bmp.height →
      (createCanvasFromBitmap bmp).px x y = bmp.px x y := by
  refine ⟨rfl, rfl, fun x y hx hy => ?_⟩
  have ha := hop x y hx hy
  simp only [createCanvasFromBitmap, drawImage, fillRect, newCanvas]
  simp only [hx, hy, and_true, true_and, Nat.zero_le, Nat.zero_add, if_pos]
  rcases hp : bmp.px x y with ⟨r, g, b, a⟩
  rw [hp] at ha
  simp only at ha
  subst ha
  simp only [srcOver, whitePixel]
  have h255 : ¬(255 + 255 * (255 - 255) / 255 = 0) := by norm_num
  simp only [if_neg h255, Pixel.mk.injEq]
  refine ⟨?_, ?_, ?_, ?_⟩ <;> norm_num <;> omega

/-- Witness for `createCanvasFromBitmap_opaque_identity` at a concrete
1×1 opaque bitmap. -/
theorem createCanvasFromBitmap_opaque_identity_witness :
    (∀ x y, x < opaqueBmp.width → y < opaqueBmp.height →
      (opaqueBmp.px x y).a = 255) ∧
    ((createCanvasFromBitmap opaqueBmp).width = opaqueBmp.width ∧
     (createCanvasFromBitmap opaqueBmp).height = opaqueBmp.height ∧
     ∀ x y, x < opaqueBmp.width → y < opaqueBmp.height →
       (createCanvasFromBitmap opaqueBmp).px x y = opaqueBmp.px x y) :=
  ⟨fun _ _ _ _ => rfl,
   createCanvasFromBitmap_opaque_identity opaqueBmp fun _ _ _ _ => rfl⟩


/-- C4: a click event whose `menuItemId` differs from the registered
identifier, or which carries no `srcUrl`, is a terminal no-op: the
handler emits no platform call at all — no fetch, no conversion, no
download handoff, no notification. -/
theorem handleContextMenuClick_nonmatching_noop (env : Env)
    (info : ClickInfo) (tab : Tab)
    (h : info.menuItemId ≠ CONTEXT_MENU_ID ∨ info.srcUrl = none) :
    handleContextMenuClick env info tab = [] := by
  rcases h with h | h
  · simp [handleContextMenuClick, h]
  · simp [handleContextMenuClick, srcUrlFalsy, h]

/-- Witness for `handleContextMenuClick_nonmatching_noop` at a concrete
non-matching click event. -/
theorem handleContextMenuClick_nonmatching_noop_witness :
    ((ClickInfo.mk "other-menu-item" (some "https://x/a.jpg")).menuItemId ≠
       CONTEXT_MENU_ID ∨
     (ClickInfo.mk "other-menu-item" (some "https://x/a.jpg")).srcUrl = none) ∧
    handleContextMenuClick testEnv
      (ClickInfo.mk "other-menu-item" (some "https://x/a.jpg")) ⟨1⟩ = [] :=
  ⟨Or.inl (by decide),
   handleContextMenuClick_nonmatching_noop testEnv
     (ClickInfo.mk "other-menu-item" (some "https://x/a.jpg")) ⟨1⟩
     (Or.inl (by decide))⟩

/-- C10: a click event whose `srcUrl` is present but equal to the empty
string is rejected by the falsy guard exactly like a missing `srcUrl`:
the handler emits no effect, even with a matching `menuItemId`. -/
theorem handleContextMenuClick_empty_srcUrl_noop (env : Env) (tab : Tab) :
    handleContextMenuClick env ⟨CONTEXT_MENU_ID, some ""⟩ tab = [] := by
  simp [handleContextMenuClick, srcUrlFalsy]

/-- C7: the blob-to-data-URL step resolves with the reader's result on a
successful read, rejects with the reader's error on a read error,
rejects with the abort error on an aborted read, and fails in exactly
those two cases. -/
theorem blobToDataURL_spec :
    (∀ s, blobToDataURL (ReaderOutcome.load s) = Except.ok s) ∧
    (∀ e, blobToDataURL (ReaderOutcome.error e) = Except.error e) ∧
    blobToDataURL ReaderOutcome.abort =
      Except.error ⟨"Blob to Data URL conversion aborted."⟩ ∧
    ∀ outcome, (∃ e, blobToDataURL outcome = Except.error e) ↔
      (outcome = ReaderOutcome.abort ∨
       ∃ e, outcome = ReaderOutcome.error e) := by
  refine ⟨fun s => rfl, fun e => rfl, rfl, fun outcome => ?_⟩
  cases outcome <;> simp [blobToDataURL]

/-- Updating titles never changes which ids are present. -/
lemma menusUpdate_any (reg : List MenuEntry) (t : String) :
    (menusUpdate reg CONTEXT_MENU_ID t).any
        (fun m => m.id == CONTEXT_MENU_ID) =
      reg.any (fun m => m.id == CONTEXT_MENU_ID) := by
  unfold menusUpdate
  rw [List.any_map]
  congr 1
  funext m
  by_cases h : m.id == CONTEXT_MENU_ID <;> simp [Function.comp, h]

/-- Updating the title twice is the same as updating it once. -/
lemma menusUpdate_idem (reg : List MenuEntry) (t : String) :
    menusUpdate (menusUpdate reg CONTEXT_MENU_ID t) CONTEXT_MENU_ID t =
      menusUpdate reg CONTEXT_MENU_ID t := by
  unfold menusUpdate
  rw [List.map_map]
  congr 1
  funext m
  by_cases h : m.id == CONTEXT_MENU_ID <;> simp [Function.comp, h]

/-- Updating the title of an id that is not registered is a no-op. -/
lemma menusUpdate_not_present (reg : List MenuEntry) (t : String)
    (h : reg.any (fun m => m.id == CONTEXT_MENU_ID) = false) :
    menusUpdate reg CONTEXT_MENU_ID t = reg := by
  induction reg with
  | nil => rfl
  | cons m rest ih =>
      simp only [List.any_cons, Bool.or_eq_false_iff] at h
      unfold menusUpdate
      rw [List.map_cons, if_neg (by simp [h.1])]
      have := ih h.2
      unfold menusUpdate at this
      rw [this]

/-- Branch characterization of the `onInstalled` listener: update when
the id is already registered, append the fresh entry otherwise. -/
lemma onInstalled_eq (reg : List MenuEntry) :
    onInstalled reg =
      (if reg.any (fun m => m.id == CONTEXT_MENU_ID)
       then menusUpdate reg CONTEXT_MENU_ID CONTEXT_MENU_TITLE
       else reg ++ [⟨CONTEXT_MENU_ID, CONTEXT_MENU_TITLE, ["image"]⟩]) := by
  unfold onInstalled menusCreate
  by_cases h : reg.any (fun m => m.id == CONTEXT_MENU_ID) <;> simp [h]

/-- C8: `onInstalled` registration is an idempotent upsert: with no
entry under the fixed identifier it appends exactly one image-context
entry with the fixed id and title; with an existing entry it updates
that entry's title in place; running it twice equals running it once. -/
theorem onInstalled_upsert (reg : List MenuEntry) :
    onInstalled reg =
      (if reg.any (fun m => m.id == CONTEXT_MENU_ID)
       then menusUpdate reg CONTEXT_MENU_ID CONTEXT_MENU_TITLE
       else reg ++ [⟨CONTEXT_MENU_ID, CONTEXT_MENU_TITLE, ["image"]⟩]) ∧
    onInstalled (onInstalled reg) = onInstalled reg := by
  refine ⟨onInstalled_eq reg, ?_⟩
  rw [onInstalled_eq reg]
  by_cases h : reg.any (fun m => m.id == CONTEXT_MENU_ID)
  · rw [if_pos h, onInstalled_eq, menusUpdate_any, if_pos h, menusUpdate_idem]
  · have h0 : reg.any (fun m => m.id == CONTEXT_MENU_ID) = false := by
      simpa using h
    rw [if_neg h, onInstalled_eq]
    have h2 : ((reg ++ [(⟨CONTEXT_MENU_ID, CONTEXT_MENU_TITLE,
        ["image"]⟩ : MenuEntry)]).any
        (fun m => m.id == CONTEXT_MENU_ID)) = true := by
      simp [List.any_append]
    rw [if_pos h2]
    have h3 : menusUpdate (reg ++ [(⟨CONTEXT_MENU_ID, CONTEXT_MENU_TITLE,
        ["image"]⟩ : MenuEntry)]) CONTEXT_MENU_ID CONTEXT_MENU_TITLE =
        menusUpdate reg CONTEXT_MENU_ID CONTEXT_MENU_TITLE ++
        menusUpdate [⟨CONTEXT_MENU_ID, CONTEXT_MENU_TITLE, ["image"]⟩]
          CONTEXT_MENU_ID CONTEXT_MENU_TITLE := by
      unfold menusUpdate
      exact List.map_append _ _ _
    rw [h3, menusUpdate_not_present reg CONTEXT_MENU_TITLE h0]
    simp [menusUpdate]

/-- When the menu id matches and the `srcUrl` is a nonempty string, the
guard passes and the handler runs the pipeline on that URL. -/
lemma handleClick_guard_pass (env : Env) (info : ClickInfo) (tab : Tab)
    (u : String) (hid : info.menuItemId = CONTEXT_MENU_ID)
    (hsrc : info.srcUrl = some u) (hne : u ≠ "") :
    handleContextMenuClick env info tab = runPipeline env u tab.id := by
  unfold handleContextMenuClick
  rw [hid, hsrc]
  simp [srcUrlFalsy, hne]

/-- The trace of `convertImageToPngBlob` contains no alert and no
download effect (those are emitted only by the orchestrator). -/
lemma convert_trace_no_output (env : Env) (u : String) :
    (convertImageToPngBlob env u).2.filter isAlertEff = [] ∧
    (convertImageToPngBlob env u).2.filter isDownloadEff = [] := by
  unfold convertImageToPngBlob
  rcases hf : env.fetch u with e | resp
  · simp [isAlertEff, isDownloadEff]
  · rcases hok : resp.ok
    · simp [hok, isAlertEff, isDownloadEff]
    · rcases hd : env.createImageBitmap resp.blob with e | bmp
      · simp [hok, hd, isAlertEff, isDownloadEff]
      · rcases he : env.convertToBlob (createCanvasFromBitmap bmp) with e | png
        · simp [hok, hd, he, isAlertEff, isDownloadEff]
        · simp [hok, hd, he, isAlertEff, isDownloadEff]

/-- Trace equation for `convertImageToPngBlob` when the fetch resolves
with a failure status: a fetch error carrying the status text, with the
remaining stages never invoked. -/
lemma convert_eq_of_status_failure (env : Env) (u : String)
    (resp : Response) (hf : env.fetch u = Except.ok resp)
    (hok : resp.ok = false) :
    convertImageToPngBlob env u =
      (Except.error ⟨"Failed to fetch image: " ++ resp.statusText⟩,
       [Effect.fetchCall u,
        Effect.consoleError ("Image conversion failed: " ++
          ("Failed to fetch image: " ++ resp.statusText))]) := by
  unfold convertImageToPngBlob
  simp only [hf, hok, reduceIte]

/-- Trace equation for `convertImageToPngBlob` when every conversion
stage succeeds. -/
lemma convert_eq_of_success (env : Env) (u : String) (resp : Response)
    (bmp : Bitmap) (png : Blob) (hf : env.fetch u = Except.ok resp)
    (hok : resp.ok = true)
    (hdec : env.createImageBitmap resp.blob = Except.ok bmp)
    (henc : env.convertToBlob (createCanvasFromBitmap bmp) =
      Except.ok png) :
    convertImageToPngBlob env u =
      (Except.ok png,
       [Effect.fetchCall u, Effect.decodeCall resp.blob,
        Effect.encodeCall]) := by
  unfold convertImageToPngBlob
  simp only [hf, hok, hdec, henc, Bool.true_eq_false, reduceIte]

/-- C1: on a qualifying click with every stage succeeding, the handler
issues exactly one download handoff, carrying the data-URL payload from
the transport-encoding step, the generated filename, and `saveAs :=
true`; the handoff is the final step of the trace and nothing awaits
the download's outcome. -/
theorem handleContextMenuClick_success_single_download
    (env : Env) (info : ClickInfo) (tab : Tab) (u : String)
    (resp : Response) (bmp : Bitmap) (png : Blob) (dataUrl : String)
    (hid : info.menuItemId = CONTEXT_MENU_ID) (hsrc : info.srcUrl = some u)
    (hne : u ≠ "")
    (hf : env.fetch u = Except.ok resp) (hok : resp.ok = true)
    (hdec : env.createImageBitmap resp.blob = Except.ok bmp)
    (henc : env.convertToBlob (createCanvasFromBitmap bmp) = Except.ok png)
    (hread : env.readAsDataURL png = ReaderOutcome.load dataUrl) :
    handleContextMenuClick env info tab =
      [Effect.fetchCall u, Effect.decodeCall resp.blob, Effect.encodeCall,
       Effect.readCall png,
       Effect.download dataUrl (generatePngFilename env.date env.random)
         true] ∧
    (handleContextMenuClick env info tab).filter isDownloadEff =
      [Effect.download dataUrl (generatePngFilename env.date env.random)
         true] := by
  have htr : handleContextMenuClick env info tab =
      [Effect.fetchCall u, Effect.decodeCall resp.blob, Effect.encodeCall,
       Effect.readCall png,
       Effect.download dataUrl (generatePngFilename env.date env.random)
         true] := by
    rw [handleClick_guard_pass env info tab u hid hsrc hne]
    unfold runPipeline
    simp only [convert_eq_of_success env u resp bmp png hf hok hdec henc,
      hread, blobToDataURL]
    rfl
  refine ⟨htr, ?_⟩
  rw [htr]
  simp [isDownloadEff]

/-- C5: when the fetch resolves with a failure status, the pipeline
fails with the fetch error carrying the status description, no later
stage runs, exactly one user alert is shown and no download handoff is
issued. -/
theorem handleContextMenuClick_fetch_failure
    (env : Env) (info : ClickInfo) (tab : Tab) (u : String)
    (resp : Response)
    (hid : info.menuItemId = CONTEXT_MENU_ID) (hsrc : info.srcUrl = some u)
    (hne : u ≠ "")
    (hf : env.fetch u = Except.ok resp) (hok : resp.ok = false) :
    handleContextMenuClick env info tab =
      [Effect.fetchCall u,
       Effect.consoleError ("Image conversion failed: " ++
         ("Failed to fetch image: " ++ resp.statusText)),
       Effect.alertInTab tab.id ("Failed to convert and download image: " ++
         ("Failed to fetch image: " ++ resp.statusText))] ∧
    (handleContextMenuClick env info tab).filter isAlertEff =
      [Effect.alertInTab tab.id ("Failed to convert and download image: " ++
         ("Failed to fetch image: " ++ resp.statusText))] ∧
    (handleContextMenuClick env info tab).filter isDownloadEff = [] := by
  have htr : handleContextMenuClick env info tab =
      [Effect.fetchCall u,
       Effect.consoleError ("Image conversion failed: " ++
         ("Failed to fetch image: " ++ resp.statusText)),
       Effect.alertInTab tab.id ("Failed to convert and download image: " ++
         ("Failed to fetch image: " ++ resp.statusText))] := by
    rw [handleClick_guard_pass env info tab u hid hsrc hne]
    unfold runPipeline
    simp only [convert_eq_of_status_failure env u resp hf hok]
    rfl
  refine ⟨htr, ?_, ?_⟩ <;> rw [htr] <;> simp [isAlertEff, isDownloadEff]

/-- C6: whatever stage fails, the orchestrator catches the error and
emits exactly one alert into the originating tab, with the message
`Failed to convert and download image: ` followed by the error's
message, and issues no download handoff. -/
theorem handleContextMenuClick_failure_single_alert
    (env : Env) (info : ClickInfo) (tab : Tab) (u : String) (e : JsError)
    (hid : info.menuItemId = CONTEXT_MENU_ID) (hsrc : info.srcUrl = some u)
    (hne : u ≠ "") (herr : pipelineError env u = some e) :
    (handleContextMenuClick env info tab).filter isAlertEff =
      [Effect.alertInTab tab.id
        ("Failed to convert and download image: " ++ e.message)] ∧
    (handleContextMenuClick env info tab).filter isDownloadEff = [] := by
  rw [handleClick_guard_pass env info tab u hid hsrc hne]
  unfold pipelineError at herr
  unfold runPipeline
  have hnoout := convert_trace_no_output env u
  rcases hc : convertImageToPngBlob env u with ⟨res, tr⟩
  rw [hc] at hnoout
  rw [hc] at herr
  rcases res with e' | png
  · simp only [Option.some_inj] at herr
    subst herr
    simp [List.filter_append, hnoout.1, hnoout.2, isAlertEff, isDownloadEff]
  · rcases hr : env.readAsDataURL png with s | e' | _
    · simp only [hr, blobToDataURL] at herr
      exact Option.noConfusion herr
    · simp only [hr, blobToDataURL, Option.some_inj] at herr
      subst herr
      simp only [hr, blobToDataURL]
      simp [List.filter_append, hnoout.1, hnoout.2, isAlertEff, isDownloadEff]
    · simp only [hr, blobToDataURL, Option.some_inj] at herr
      subst herr
      simp only [hr, blobToDataURL]
      simp [List.filter_append, hnoout.1, hnoout.2, isAlertEff, isDownloadEff]



/-- Witness for `handleContextMenuClick_success_single_download` in the
all-stages-succeed environment `testEnv`. -/
theorem handleContextMenuClick_success_single_download_witness :
    (testInfo.menuItemId = CONTEXT_MENU_ID ∧ testInfo.srcUrl = some testUrl ∧
     testUrl ≠ "" ∧ testEnv.fetch testUrl = Except.ok testResp ∧
     testResp.ok = true ∧
     testEnv.createImageBitmap testResp.blob = Except.ok opaqueBmp ∧
     testEnv.convertToBlob (createCanvasFromBitmap opaqueBmp) =
       Except.ok testPngBlob ∧
     testEnv.readAsDataURL testPngBlob = ReaderOutcome.load testDataUrl) ∧
    (handleContextMenuClick testEnv testInfo ⟨7⟩ =
      [Effect.fetchCall testUrl, Effect.decodeCall testResp.blob,
       Effect.encodeCall, Effect.readCall testPngBlob,
       Effect.download testDataUrl
         (generatePngFilename testEnv.date testEnv.random) true] ∧
     (handleContextMenuClick testEnv testInfo ⟨7⟩).filter isDownloadEff =
      [Effect.download testDataUrl
         (generatePngFilename testEnv.date testEnv.random) true]) :=
  ⟨⟨rfl, rfl, by decide, rfl, rfl, rfl, rfl, rfl⟩,
   handleContextMenuClick_success_single_download testEnv testInfo ⟨7⟩
     testUrl testResp opaqueBmp testPngBlob testDataUrl
     rfl rfl (by decide) rfl rfl rfl rfl rfl⟩

/-- Witness for `handleContextMenuClick_fetch_failure` in the
404-serving environment `testEnv404`. -/
theorem handleContextMenuClick_fetch_failure_witness :
    (testInfo.menuItemId = CONTEXT_MENU_ID ∧ testInfo.srcUrl = some testUrl ∧
     testUrl ≠ "" ∧ testEnv404.fetch testUrl = Except.ok testResp404 ∧
     testResp404.ok = false) ∧
    (handleContextMenuClick testEnv404 testInfo ⟨7⟩ =
      [Effect.fetchCall testUrl,
       Effect.consoleError ("Image conversion failed: " ++
         ("Failed to fetch image: " ++ testResp404.statusText)),
       Effect.alertInTab (7 : Nat) ("Failed to convert and download image: " ++
         ("Failed to fetch image: " ++ testResp404.statusText))] ∧
     (handleContextMenuClick testEnv404 testInfo ⟨7⟩).filter isAlertEff =
      [Effect.alertInTab (7 : Nat) ("Failed to convert and download image: " ++
         ("Failed to fetch image: " ++ testResp404.statusText))] ∧
     (handleContextMenuClick testEnv404 testInfo ⟨7⟩).filter isDownloadEff =
      []) :=
  ⟨⟨rfl, rfl, by decide, rfl, rfl⟩,
   handleContextMenuClick_fetch_failure testEnv404 testInfo ⟨7⟩
     testUrl testResp404 rfl rfl (by decide) rfl rfl⟩

/-- Witness for `handleContextMenuClick_failure_single_alert` in the
network-failure environment `testEnvNetFail`. -/
theorem handleContextMenuClick_failure_single_alert_witness :
    (testInfo.menuItemId = CONTEXT_MENU_ID ∧ testInfo.srcUrl = some testUrl ∧
     testUrl ≠ "" ∧
     pipelineError testEnvNetFail testUrl =
       some ⟨"NetworkError when attempting to fetch resource."⟩) ∧
    ((handleContextMenuClick testEnvNetFail testInfo ⟨7⟩).filter isAlertEff =
      [Effect.alertInTab (7 : Nat)
        ("Failed to convert and download image: " ++
         (JsError.mk
           "NetworkError when attempting to fetch resource.").message)] ∧
     (handleContextMenuClick testEnvNetFail testInfo ⟨7⟩).filter
       isDownloadEff = []) :=
  ⟨⟨rfl, rfl, by decide, rfl⟩,
   handleContextMenuClick_failure_single_alert testEnvNetFail testInfo ⟨7⟩
     testUrl ⟨"NetworkError when attempting to fetch resource."⟩
     rfl rfl (by decide) rfl⟩

/-- The fuelled digit function agrees with `Nat.digits` in base 10. -/
lemma digitsRevAux_eq_digits :
    ∀ fuel n, 0 < n → n ≤ fuel → digitsRevAux fuel n = Nat.digits 10 n := by
  intro fuel
  induction fuel with
  | zero => intro n h1 h2; omega
  | succ fuel ih =>
      intro n h1 h2
      unfold digitsRevAux
      by_cases h : n < 10
      · rw [if_pos h]
        rw [Nat.digits_def' (by norm_num : (1:Nat) < 10) h1]
        have hm : n % 10 = n := Nat.mod_eq_of_lt h
        have hd : n / 10 = 0 := Nat.div_eq_of_lt h
        rw [hm, hd]
        simp
      · rw [if_neg h]
        have h10 : 10 ≤ n := by omega
        have hpos : 0 < n / 10 := Nat.div_pos h10 (by norm_num)
        have hle : n / 10 ≤ fuel := by
          have := Nat.div_lt_self h1 (by norm_num : (1:Nat) < 10)
          omega
        rw [ih (n / 10) hpos hle]
        rw [Nat.digits_def' (by norm_num : (1:Nat) < 10) h1]

/-- `digitsRev` agrees with `Nat.digits` in base 10 on positive input. -/
lemma digitsRev_eq_digits (n : Nat) (h : 0 < n) :
    digitsRev n = Nat.digits 10 n :=
  digitsRevAux_eq_digits (n + 1) n h (by omega)

/-- The decimal string of `n` with `10 ^ k ≤ n < 10 ^ (k + 1)` has
exactly `k + 1` characters. -/
lemma natToString_length (n k : Nat) (h1 : 10 ^ k ≤ n)
    (h2 : n < 10 ^ (k + 1)) : (natToString n).data.length = k + 1 := by
  have hpos : 0 < n :=
    lt_of_lt_of_le (Nat.pos_pow_of_pos k (by norm_num)) h1
  unfold natToString
  simp only [List.length_map, List.length_reverse]
  rw [digitsRev_eq_digits n hpos]
  rw [Nat.digits_len 10 n (by norm_num) (by omega)]
  rw [Nat.log_eq_of_pow_le_of_lt_pow h1 h2]

/-- The character for a decimal digit is a digit character. -/
lemma char_digit (d : Nat) (h : d < 10) :
    (Char.ofNat (48 + d)).isDigit = true := by
  interval_cases d <;> decide

/-- Every character of the decimal string of `n` is a digit. -/
lemma natToString_all_digits (n : Nat) :
    (natToString n).data.all Char.isDigit = true := by
  unfold natToString
  rw [List.all_eq_true]
  intro c hc
  obtain ⟨d, hd, rfl⟩ := List.mem_map.mp hc
  apply char_digit
  rw [List.mem_reverse] at hd
  rcases Nat.eq_zero_or_pos n with h0 | hpos
  · subst h0
    simp [digitsRev, digitsRevAux] at hd
    omega
  · rw [digitsRev_eq_digits n hpos] at hd
    exact Nat.digits_lt_base (by norm_num) hd

/-- Padding a one- or two-character digit string yields a two-character
digit string. -/
lemma padStart2_spec (s : String)
    (h1 : s.data.length = 1 ∨ s.data.length = 2)
    (hd : s.data.all Char.isDigit = true) :
    (padStart2 s).data.length = 2 ∧
    (padStart2 s).data.all Char.isDigit = true := by
  unfold padStart2
  have hs : s.length = s.data.length := rfl
  rcases h1 with h | h
  · rw [if_pos (by omega)]
    rw [String.data_append]
    constructor
    · simp [hs, h]
    · rw [List.all_append]
      refine (Bool.and_eq_true _ _).mpr ⟨?_, hd⟩
      rw [hs, h]
      decide
  · rw [if_neg (by omega)]
    exact ⟨h, hd⟩

/-- A string shaped `image-` + 8 digits + `-` + 6 digits + `.png`
satisfies the pattern matcher. -/
lemma matchesFilenamePattern_of_shape (s : String) (d8 d6 : List Char)
    (hs : s.data = ['i', 'm', 'a', 'g', 'e', '-'] ++
      (d8 ++ (['-'] ++ (d6 ++ ['.', 'p', 'n', 'g']))))
    (h8 : d8.length = 8) (h6 : d6.length = 6)
    (a8 : d8.all Char.isDigit = true) (a6 : d6.all Char.isDigit = true) :
    matchesFilenamePattern s = true := by
  have hlen : s.data.length = 25 := by simp [hs, h8, h6]
  have htake6 : s.data.take 6 = ['i', 'm', 'a', 'g', 'e', '-'] := by
    rw [hs]
    exact List.take_left' rfl
  have hdrop6 : s.data.drop 6 =
      d8 ++ (['-'] ++ (d6 ++ ['.', 'p', 'n', 'g'])) := by
    rw [hs]
    exact List.drop_left' rfl
  have htake8 : (s.data.drop 6).take 8 = d8 := by
    rw [hdrop6]
    exact List.take_left' h8
  have hdrop14 : s.data.drop 14 = ['-'] ++ (d6 ++ ['.', 'p', 'n', 'g']) := by
    have h : s.data.drop 14 = (s.data.drop 6).drop 8 := by
      rw [List.drop_drop]
    rw [h, hdrop6]
    exact List.drop_left' h8
  have htake1 : (s.data.drop 14).take 1 = ['-'] := by
    rw [hdrop14]
    exact List.take_left' rfl
  have hdrop15 : s.data.drop 15 = d6 ++ ['.', 'p', 'n', 'g'] := by
    have h : s.data.drop 15 = (s.data.drop 14).drop 1 := by
      rw [List.drop_drop]
    rw [h, hdrop14]
    exact List.drop_left' rfl
  have htake6b : (s.data.drop 15).take 6 = d6 := by
    rw [hdrop15]
    exact List.take_left' h6
  have hdrop21 : s.data.drop 21 = ['.', 'p', 'n', 'g'] := by
    have h : s.data.drop 21 = (s.data.drop 15).drop 6 := by
      rw [List.drop_drop]
    rw [h, hdrop15]
    exact List.drop_left' h6
  simp only [matchesFilenamePattern, hlen, htake6, htake8, htake1, htake6b,
    hdrop21, a8, a6]
  decide

/-- Zero-padding the decimal string of `1 ≤ n ≤ 99` always yields two
digit characters. -/
lemma pad2_of_le_99 (n : Nat) (h1 : 1 ≤ n) (h2 : n ≤ 99) :
    (padStart2 (natToString n)).data.length = 2 ∧
    (padStart2 (natToString n)).data.all Char.isDigit = true := by
  apply padStart2_spec
  · by_cases h : n < 10
    · left
      apply natToString_length n 0
      · simpa using h1
      · simpa using h
    · right
      apply natToString_length n 1
      · simpa using (by omega : 10 ≤ n)
      · have hp : (10:ℕ)^2 = 100 := by norm_num
        omega
  · exact natToString_all_digits n

/-- C3: every generated filename is
`image-` + the zero-padded local date + `-` + a six-digit suffix +
`.png`, matching `image-\d{8}-\d{6}\.png`; the suffix lies in
`[100000, 999999]`, and it equals a given `k` in that range exactly when
`Math.random()` fell in an interval of width `1/900000` — the suffix is
uniform whenever the random source is. -/
theorem generatePngFilename_shape (now : JsDate) (rand : ℚ)
    (hy1 : 1000 ≤ now.getFullYear) (hy2 : now.getFullYear ≤ 9999)
    (hm : now.getMonth ≤ 11)
    (hd1 : 1 ≤ now.getDate) (hd2 : now.getDate ≤ 31)
    (hr0 : 0 ≤ rand) (hr1 : rand < 1) :
    ∃ suffix : Nat,
      100000 ≤ suffix ∧ suffix ≤ 999999 ∧
      generatePngFilename now rand =
        "image-" ++ (natToString now.getFullYear ++
          padStart2 (natToString (now.getMonth + 1)) ++
          padStart2 (natToString now.getDate)) ++ "-" ++
          natToString suffix ++ ".png" ∧
      matchesFilenamePattern (generatePngFilename now rand) = true ∧
      ∀ k : Nat, 100000 ≤ k → k ≤ 999999 →
        (suffix = k ↔ ((k : ℚ) - 100000) / 900000 ≤ rand ∧
          rand < ((k : ℚ) + 1 - 100000) / 900000) := by
  have hq0 : (0:ℚ) ≤ (100000 : ℚ) + rand * 900000 := by nlinarith
  refine ⟨Nat.floor ((100000 : ℚ) + rand * 900000), ?_, ?_, rfl, ?_, ?_⟩
  · apply Nat.le_floor
    push_cast
    nlinarith
  · have : Nat.floor ((100000 : ℚ) + rand * 900000) < 1000000 := by
      rw [Nat.floor_lt hq0]
      push_cast
      nlinarith
    omega
  · have hflo : 100000 ≤ Nat.floor ((100000 : ℚ) + rand * 900000) := by
      apply Nat.le_floor
      push_cast
      nlinarith
    have hfhi : Nat.floor ((100000 : ℚ) + rand * 900000) < 1000000 := by
      rw [Nat.floor_lt hq0]
      push_cast
      nlinarith
    have hylen : (natToString now.getFullYear).data.length = 4 := by
      apply natToString_length now.getFullYear 3
      · have hp : (10:ℕ)^3 = 1000 := by norm_num
        omega
      · have hp : (10:ℕ)^4 = 10000 := by norm_num
        omega
    have hydig := natToString_all_digits now.getFullYear
    have hmlen := pad2_of_le_99 (now.getMonth + 1) (by omega) (by omega)
    have hdlen := pad2_of_le_99 now.getDate (by omega) (by omega)
    have hslen : (natToString (Nat.floor ((100000 : ℚ) +
        rand * 900000))).data.length = 6 := by
      apply natToString_length _ 5
      · have hp : (10:ℕ)^5 = 100000 := by norm_num
        omega
      · have hp : (10:ℕ)^6 = 1000000 := by norm_num
        omega
    have hsdig := natToString_all_digits
      (Nat.floor ((100000 : ℚ) + rand * 900000))
    apply matchesFilenamePattern_of_shape _
      ((natToString now.getFullYear ++
        padStart2 (natToString (now.getMonth + 1)) ++
        padStart2 (natToString now.getDate)).data)
      ((natToString (Nat.floor ((100000 : ℚ) + rand * 900000))).data)
    · have himg : "image-".data = ['i', 'm', 'a', 'g', 'e', '-'] := rfl
      have hhy : "-".data = ['-'] := rfl
      have hpng : ".png".data = ['.', 'p', 'n', 'g'] := rfl
      simp [generatePngFilename, String.data_append, List.append_assoc,
        himg, hhy, hpng]
    · rw [String.data_append, String.data_append]
      simp only [List.length_append]
      omega
    · exact hslen
    · rw [String.data_append, String.data_append, List.all_append,
        List.all_append, Bool.and_eq_true, Bool.and_eq_true]
      exact ⟨⟨hydig, hmlen.2⟩, hdlen.2⟩
    · exact hsdig
  · intro k hk1 hk2
    rw [Nat.floor_eq_iff hq0]
    constructor
    · rintro ⟨h1, h2⟩
      constructor
      · rw [div_le_iff₀ (by norm_num : (0:ℚ) < 900000)]
        linarith
      · rw [lt_div_iff₀ (by norm_num : (0:ℚ) < 900000)]
        linarith
    · rintro ⟨h1, h2⟩
      rw [div_le_iff₀ (by norm_num : (0:ℚ) < 900000)] at h1
      rw [lt_div_iff₀ (by norm_num : (0:ℚ) < 900000)] at h2
      refine ⟨by linarith, by linarith⟩

/-- Witness for `generatePngFilename_shape` at the concrete date
2026-10-12 (`getMonth` 9 is October) with `Math.random()` = 0. -/
theorem generatePngFilename_shape_witness :
    (1000 ≤ (JsDate.mk 2026 9 12).getFullYear ∧
     (JsDate.mk 2026 9 12).getFullYear ≤ 9999 ∧
     (JsDate.mk 2026 9 12).getMonth ≤ 11 ∧
     1 ≤ (JsDate.mk 2026 9 12).getDate ∧
     (JsDate.mk 2026 9 12).getDate ≤ 31 ∧
     (0:ℚ) ≤ 0 ∧ (0:ℚ) < 1) ∧
    (∃ suffix : Nat,
      100000 ≤ suffix ∧ suffix ≤ 999999 ∧
      generatePngFilename (JsDate.mk 2026 9 12) 0 =
        "image-" ++ (natToString (JsDate.mk 2026 9 12).getFullYear ++
          padStart2 (natToString ((JsDate.mk 2026 9 12).getMonth + 1)) ++
          padStart2 (natToString (JsDate.mk 2026 9 12).getDate)) ++ "-" ++
          natToString suffix ++ ".png" ∧
      matchesFilenamePattern (generatePngFilename (JsDate.mk 2026 9 12) 0) =
        true ∧
      ∀ k : Nat, 100000 ≤ k → k ≤ 999999 →
        (suffix = k ↔ ((k : ℚ) - 100000) / 900000 ≤ 0 ∧
          (0:ℚ) < ((k : ℚ) + 1 - 100000) / 900000)) :=
  ⟨⟨by norm_num, by norm_num, by norm_num, by norm_num, by norm_num,
    le_refl 0, by norm_num⟩,
   generatePngFilename_shape (JsDate.mk 2026 9 12) 0 (by norm_num)
     (by norm_num) (by norm_num) (by norm_num) (by norm_num)
     (le_refl 0) (by norm_num)⟩
